import Mathlib

/-!
Verification of the `RESTResource` dispatcher of `modules/admin/rest.py`
(SmartHomeNG admin module, based on code by Anders Pearson).

The module is a cherrypy controller mixin.  We embed it shallowly:

* a controller instance becomes a `Node`: its `REST_map` override,
  its `REST_children` registry, its callable attributes (with the optional
  `expose_resource` marker), and its `REST_instantiate` / `REST_create`
  hooks (which read `self.parent`, threaded here as an explicit argument);
* `cherrypy.request.method` is threaded as an explicit `Method` argument;
* raising an exception becomes returning `Except.error`;
* `RESTResource.REST_dispatch` and `RESTResource.default` become the Lean
  functions `Node.REST_dispatch` and `Node.default` below, translated
  branch by branch from the Python source.

Instrumented twins (`Node.REST_dispatchT`, `Node.defaultT`) compute the same
result together with an execution trace: the attribute writes performed by
the dispatcher itself (the source performs exactly one kind of attribute
write, `c.parent = resource`), the number of handler invocations, the number
of `REST_create` calls, the number of logged warnings, and the recursion
depth.  Lemmas `REST_dispatchT_result` and `defaultT_result` prove the twins
agree with the plain translations.
-/

set_option maxHeartbeats 1000000

namespace SHRest

/-- HTTP method, as the string `cherrypy.request.method`. -/
abbrev Method := String

/-- The keyword parameters `**params` of a request, as an association list. -/
abbrev Params := List (String × String)

/-- Opaque application-level values: resources and handler results.
`emptyList` is the empty Python list produced by the builtin `list()`. -/
inductive Value where
  | str : String → Value
  | emptyList : Value
  deriving DecidableEq, Repr

/-- Python exceptions observable at the dispatcher boundary:
`cherrypy.NotFound`, `cherrypy.HTTPError(status)`, `AttributeError` (from a
bare two-argument `getattr`), `TypeError` (from calling the builtin `list`
with keyword arguments), and arbitrary application exceptions. -/
inductive Exc where
  | notFound : Exc
  | httpError : Nat → Exc
  | attributeError : Exc
  | typeError : Exc
  | userError : String → Exc
  deriving DecidableEq, Repr

/-- Result of a dispatcher call: a returned value or a raised exception. -/
abbrev Result := Except Exc Value

/-- A callable attribute of a controller.  `expose_resource` is `none` when
the attribute carries no `expose_resource` marker at all (so a bare
`getattr(m, "expose_resource")` raises `AttributeError`) and `some b` when
the marker is present with truthiness `b`.  `call v segs ps` models the
Python call `m(resource, *segs, **ps)`; in particular `call v [] ps` is
`m(resource, **ps)`.  A bound method object is always truthy, so the guard
`if m and ...` of the source reduces to the marker check. -/
structure Handler where
  expose_resource : Option Bool
  call : Value → List String → Params → Result

/-- A controller instance (a `RESTResource` subclass object):
`REST_map` (per-type verb override map), `REST_children` (child registry),
the callable attributes of the instance, and the `REST_instantiate` /
`REST_create` hooks.  The hooks receive the transient `self.parent` field
(set by the parent dispatcher before delegation) as an explicit
`Option Value` argument. -/
inductive Node where
  | mk :
      (rest_map : List (Method × String)) →
      (rest_children : List (String × Node)) →
      (attrs : List (String × Handler)) →
      (inst : Option Value → String → Except Exc (Option Value)) →
      (create : Option Value → String → Result) →
      Node

/-- The per-type verb override map `self.REST_map`. -/
def Node.REST_map : Node → List (Method × String)
  | .mk m _ _ _ _ => m

/-- The child registry `self.REST_children`. -/
def Node.REST_children : Node → List (String × Node)
  | .mk _ c _ _ _ => c

/-- The callable attributes of the instance (for `getattr(self, name)`). -/
def Node.attrs : Node → List (String × Handler)
  | .mk _ _ a _ _ => a

/-- The hook `self.REST_instantiate(id)`, with `self.parent` explicit. -/
def Node.REST_instantiate : Node → Option Value → String → Except Exc (Option Value)
  | .mk _ _ _ i _ => i

/-- The hook `self.REST_create(id)`, with `self.parent` explicit. -/
def Node.REST_create : Node → Option Value → String → Result
  | .mk _ _ _ _ c => c

/-- The class-level default verb map `RESTResource.REST_defaults`. -/
def REST_defaults : List (Method × String) :=
  [("DELETE", "delete"), ("GET", "index"), ("POST", "add"), ("PUT", "update")]

/-- The inner block that `REST_dispatch` runs (verbatim twice in the source,
once for `REST_map` and once for `REST_defaults`) after mapping the method
to a handler name:

* `m = getattr(self, name)` — absence raises, is caught, a warning is
  logged and `cherrypy.HTTPError(status=400)` is raised;
* `try: if m and getattr(m, "expose_resource"): return m(resource, **params)
  except: pass` — a missing marker raises inside the `try` and is swallowed,
  a falsey marker skips the call, and an exception raised by the invocation
  is swallowed; in all three cases control falls through to the final
  `raise cherrypy.NotFound`. -/
def Node.REST_invoke (n : Node) (hname : String) (resource : Value)
    (params : Params) : Result :=
  match n.attrs.lookup hname with
  | none => .error (.httpError 400)
  | some m =>
    match m.expose_resource with
    | none => .error .notFound
    | some b =>
      if b then
        match m.call resource [] params with
        | .ok v => .ok v
        | .error _ => .error .notFound
      else .error .notFound

/-- `RESTResource.REST_dispatch(resource, **params)`: map the request method
through `REST_map` if present there, else through `REST_defaults`, and run
the invocation block; a method in neither mapping reaches the final
`raise cherrypy.NotFound`. -/
def Node.REST_dispatch (n : Node) (method : Method) (resource : Value)
    (params : Params) : Result :=
  match n.REST_map.lookup method with
  | some hname => n.REST_invoke hname resource params
  | none =>
    match REST_defaults.lookup method with
    | some hname => n.REST_invoke hname resource params
    | none => .error .notFound

/-- The empty-path fallback `return list(**params)` of `default`.  The call
`self.list(**params)` is commented out in the source; the active code calls
the Python builtin `list`, which returns the empty list when given no
keyword arguments and raises `TypeError` otherwise. -/
def list_builtin (params : Params) : Result :=
  if params.isEmpty then .ok .emptyList else .error .typeError

/-- `RESTResource.default(*vpath, **params)`, the recursive path walk:

* empty `vpath`: `return list(**params)` (the builtin, see `list_builtin`);
* otherwise pop `atom` and call `REST_instantiate(atom)`; on `None`, a PUT
  request calls `REST_create(atom)`, any other method raises
  `cherrypy.NotFound`;
* if a segment `a` remains: a hit in `REST_children` sets `c.parent` to the
  resource and recurses into `c.default` with the remaining segments; else
  `getattr(self, a, None)` is probed and the guard
  `if method and getattr(method, "expose_resource")` runs UNGUARDED by any
  `try`, so an attribute without the marker raises an uncaught
  `AttributeError`, a falsey marker raises `cherrypy.NotFound`, and a truthy
  marker calls `method(resource, *vpath, **params)`;
* with no segment left, `return self.REST_dispatch(resource, **params)`. -/
def Node.default (n : Node) (parent : Option Value) (method : Method)
    (vpath : List String) (params : Params) : Result :=
  match vpath with
  | [] => list_builtin params
  | atom :: rest =>
    let resourceE : Result :=
      match n.REST_instantiate parent atom with
      | .error e => .error e
      | .ok (some r) => .ok r
      | .ok none =>
        if method == "PUT" then n.REST_create parent atom
        else .error .notFound
    match resourceE with
    | .error e => .error e
    | .ok resource =>
      match rest with
      | [] => n.REST_dispatch method resource params
      | a :: rest2 =>
        match n.REST_children.lookup a with
        | some c => Node.default c (some resource) method rest2 params
        | none =>
          match n.attrs.lookup a with
          | none => .error .notFound
          | some m =>
            match m.expose_resource with
            | none => .error .attributeError
            | some b =>
              if b then m.call resource rest2 params
              else .error .notFound

/-- Execution trace of one `REST_dispatch` call: the result, the number of
handler invocations performed, and whether a warning was logged. -/
structure DispatchTrace where
  result : Result
  calls : Nat
  warned : Bool

/-- Instrumented twin of `Node.REST_invoke`: same control flow, plus the
invocation count and the logged-warning flag. -/
def Node.REST_invokeT (n : Node) (hname : String) (resource : Value)
    (params : Params) : DispatchTrace :=
  match n.attrs.lookup hname with
  | none => ⟨.error (.httpError 400), 0, true⟩
  | some m =>
    match m.expose_resource with
    | none => ⟨.error .notFound, 0, false⟩
    | some b =>
      if b then
        match m.call resource [] params with
        | .ok v => ⟨.ok v, 1, false⟩
        | .error _ => ⟨.error .notFound, 1, false⟩
      else ⟨.error .notFound, 0, false⟩

/-- Instrumented twin of `Node.REST_dispatch`. -/
def Node.REST_dispatchT (n : Node) (method : Method) (resource : Value)
    (params : Params) : DispatchTrace :=
  match n.REST_map.lookup method with
  | some hname => n.REST_invokeT hname resource params
  | none =>
    match REST_defaults.lookup method with
    | some hname => n.REST_invokeT hname resource params
    | none => ⟨.error .notFound, 0, false⟩

/-- Execution trace of one `default` call rooted at path `loc`:

* `result` — the value returned or exception raised;
* `writes` — the attribute writes performed by the dispatcher itself.  The
  only attribute assignment in the source of `default` is
  `c.parent = resource` just before delegation, so each entry records the
  tree path of the child dispatcher written and the resource assigned;
* `handlerCalls` — how many exposed handlers were invoked;
* `createCalls` — how many times `REST_create` was called;
* `depth` — how many `default` stack frames ran. -/
structure Trace where
  result : Result
  writes : List (List String × Value)
  handlerCalls : Nat
  createCalls : Nat
  depth : Nat

/-- Instrumented twin of `Node.default`: same control flow, branch for
branch, plus the trace bookkeeping.  `loc` is the tree path of `n` from the
root dispatcher, used only to label the recorded writes. -/
def Node.defaultT (n : Node) (loc : List String) (parent : Option Value)
    (method : Method) (vpath : List String) (params : Params) : Trace :=
  match vpath with
  | [] => ⟨list_builtin params, [], 0, 0, 1⟩
  | atom :: rest =>
    let resourceE : Result × Nat :=
      match n.REST_instantiate parent atom with
      | .error e => (.error e, 0)
      | .ok (some r) => (.ok r, 0)
      | .ok none =>
        if method == "PUT" then (n.REST_create parent atom, 1)
        else (.error .notFound, 0)
    match resourceE with
    | (.error e, cc) => ⟨.error e, [], 0, cc, 1⟩
    | (.ok resource, cc) =>
      match rest with
      | [] =>
        let d := n.REST_dispatchT method resource params
        ⟨d.result, [], d.calls, cc, 1⟩
      | a :: rest2 =>
        match n.REST_children.lookup a with
        | some c =>
          let t := Node.defaultT c (loc ++ [a]) (some resource) method rest2 params
          ⟨t.result, (loc ++ [a], resource) :: t.writes,
            t.handlerCalls, cc + t.createCalls, t.depth + 1⟩
        | none =>
          match n.attrs.lookup a with
          | none => ⟨.error .notFound, [], 0, cc, 1⟩
          | some m =>
            match m.expose_resource with
            | none => ⟨.error .attributeError, [], 0, cc, 1⟩
            | some b =>
              if b then ⟨m.call resource rest2 params, [], 1, cc, 1⟩
              else ⟨.error .notFound, [], 0, cc, 1⟩

/-- The instrumented invocation block computes the same result as the plain
translation. -/
theorem REST_invokeT_result (n : Node) (hname : String) (resource : Value)
    (params : Params) :
    (n.REST_invokeT hname resource params).result
      = n.REST_invoke hname resource params := by
  cases h1 : n.attrs.lookup hname with
  | none => simp [Node.REST_invokeT, Node.REST_invoke, h1]
  | some m =>
    cases h2 : m.expose_resource with
    | none => simp [Node.REST_invokeT, Node.REST_invoke, h1, h2]
    | some b =>
      cases b with
      | false => simp [Node.REST_invokeT, Node.REST_invoke, h1, h2]
      | true =>
        cases h3 : m.call resource [] params with
        | ok v => simp [Node.REST_invokeT, Node.REST_invoke, h1, h2, h3]
        | error e => simp [Node.REST_invokeT, Node.REST_invoke, h1, h2, h3]

/-- The instrumented verb dispatch computes the same result as the plain
translation. -/
theorem REST_dispatchT_result (n : Node) (method : Method) (resource : Value)
    (params : Params) :
    (n.REST_dispatchT method resource params).result
      = n.REST_dispatch method resource params := by
  cases h1 : n.REST_map.lookup method with
  | some hname =>
    simpa [Node.REST_dispatchT, Node.REST_dispatch, h1] using
      REST_invokeT_result n hname resource params
  | none =>
    cases h2 : REST_defaults.lookup method with
    | some hname =>
      simpa [Node.REST_dispatchT, Node.REST_dispatch, h1, h2] using
        REST_invokeT_result n hname resource params
    | none => simp [Node.REST_dispatchT, Node.REST_dispatch, h1, h2]

/-- The instrumented path walk computes the same result as the plain
translation. -/
theorem defaultT_result (n : Node) (loc : List String) (parent : Option Value)
    (method : Method) (vpath : List String) (params : Params) :
    (n.defaultT loc parent method vpath params).result
      = n.default parent method vpath params := by
  match vpath with
  | [] => rfl
  | atom :: [] =>
    cases h1 : n.REST_instantiate parent atom with
    | error e => simp [Node.defaultT, Node.default, h1]
    | ok o =>
      cases o with
      | some r =>
        simpa [Node.defaultT, Node.default, h1] using
          REST_dispatchT_result n method r params
      | none =>
        by_cases hput : (method == "PUT") = true
        · cases h2 : n.REST_create parent atom with
          | error e => simp [Node.defaultT, Node.default, h1, hput, h2]
          | ok r =>
            simpa [Node.defaultT, Node.default, h1, hput, h2] using
              REST_dispatchT_result n method r params
        · simp [Node.defaultT, Node.default, h1, hput]
  | atom :: a :: rest2 =>
    cases h1 : n.REST_instantiate parent atom with
    | error e => simp [Node.defaultT, Node.default, h1]
    | ok o =>
      cases o with
      | some r =>
        cases h4 : n.REST_children.lookup a with
        | some c =>
          simpa [Node.defaultT, Node.default, h1, h4] using
            defaultT_result c (loc ++ [a]) (some r) method rest2 params
        | none =>
          cases h5 : n.attrs.lookup a with
          | none => simp [Node.defaultT, Node.default, h1, h4, h5]
          | some m =>
            cases h6 : m.expose_resource with
            | none => simp [Node.defaultT, Node.default, h1, h4, h5, h6]
            | some b =>
              cases b <;> simp [Node.defaultT, Node.default, h1, h4, h5, h6]
      | none =>
        by_cases hput : (method == "PUT") = true
        · cases h2 : n.REST_create parent atom with
          | error e => simp [Node.defaultT, Node.default, h1, hput, h2]
          | ok r =>
            cases h4 : n.REST_children.lookup a with
            | some c =>
              simpa [Node.defaultT, Node.default, h1, hput, h2, h4] using
                defaultT_result c (loc ++ [a]) (some r) method rest2 params
            | none =>
              cases h5 : n.attrs.lookup a with
              | none => simp [Node.defaultT, Node.default, h1, hput, h2, h4, h5]
              | some m =>
                cases h6 : m.expose_resource with
                | none => simp [Node.defaultT, Node.default, h1, hput, h2, h4, h5, h6]
                | some b =>
                  cases b <;>
                    simp [Node.defaultT, Node.default, h1, hput, h2, h4, h5, h6]
        · simp [Node.defaultT, Node.default, h1, hput]

/-- In `REST_defaults`, GET maps to the handler name index. -/
theorem lookup_defaults_GET : REST_defaults.lookup "GET" = some "index" := rfl

/-- In `REST_defaults`, PUT maps to the handler name update. -/
theorem lookup_defaults_PUT : REST_defaults.lookup "PUT" = some "update" := rfl

/-- Sample handler: `PostController.index`, exposed. -/
def post_index : Handler := ⟨some true, fun post _ _ => .ok post⟩

/-- Sample handler: `PostController.update`, exposed. -/
def post_update : Handler := ⟨some true, fun _ _ _ => .ok (.str "ok")⟩

/-- Sample controller in the style of the docstring `PostController`:
instantiation and creation both read the parent resource. -/
def postController : Node :=
  .mk [] []
    [("index", post_index), ("update", post_update)]
    (fun parent slug =>
      match parent with
      | some (.str p) =>
        if slug == "my-first-post" then .ok (some (.str (p ++ "/" ++ slug)))
        else .ok none
      | _ => .ok none)
    (fun parent slug =>
      match parent with
      | some (.str p) => .ok (.str (p ++ "/" ++ slug))
      | _ => .ok (.str slug))

/-- Sample handler: `UserController.index`, exposed. -/
def user_index : Handler := ⟨some true, fun u _ _ => .ok u⟩

/-- Sample handler: `UserController.update`, exposed. -/
def user_update : Handler := ⟨some true, fun _ _ _ => .ok (.str "updated")⟩

/-- Sample controller in the style of the docstring `UserController`, with
the `posts` child registry entry. -/
def userController : Node :=
  .mk [] [("posts", postController)]
    [("index", user_index), ("update", user_update)]
    (fun _ name =>
      if name == "bob" then .ok (some (.str "user-bob")) else .ok none)
    (fun _ name => .ok (.str ("user-" ++ name)))

/-- Sample handler carrying NO `expose_resource` marker at all. -/
def extra_action : Handler := ⟨none, fun _ _ _ => .ok (.str "extra-ran")⟩

/-- Sample controller whose only callable attribute lacks the
`expose_resource` marker, and whose `REST_map` routes GET to it. -/
def unexposedController : Node :=
  .mk [("GET", "extra_action")] []
    [("extra_action", extra_action)]
    (fun _ id => .ok (some (.str id)))
    (fun _ _ => .error .notFound)

/-- C1: for a single-segment path whose id resolves, method GET with no
per-type override for GET resolves the resource, verb-dispatches GET to the
handler named index through `REST_defaults`, invokes it as
`index(resource, **params)`, and returns its result. -/
theorem claim1_get_index (n : Node) (parent : Option Value) (id : String)
    (params : Params) (v r : Value) (h : Handler)
    (hinst : n.REST_instantiate parent id = .ok (some v))
    (hmap : n.REST_map.lookup "GET" = none)
    (hidx : n.attrs.lookup "index" = some h)
    (hexp : h.expose_resource = some true)
    (hcall : h.call v [] params = .ok r) :
    n.default parent "GET" [id] params = .ok r := by
  simp [Node.default, Node.REST_dispatch, Node.REST_invoke, hinst, hmap,
    hidx, hexp, hcall, lookup_defaults_GET]

/-- Witness for C1 on the sample `userController` at path bob. -/
theorem claim1_get_index_witness :
    userController.default none "GET" ["bob"] [] = .ok (.str "user-bob") :=
  claim1_get_index userController none "bob" [] (.str "user-bob")
    (.str "user-bob") user_index rfl rfl rfl rfl rfl

/-- C2: for a single-segment path whose id does not resolve, method PUT
calls `REST_create(id)` to obtain the resource (create counter 1) and then
verb-dispatches PUT to the handler named update via `REST_defaults`,
invoking `update(resource, **params)` on the newly created resource and
returning its result. -/
theorem claim2_put_create_update (n : Node) (loc : List String)
    (parent : Option Value) (id : String) (params : Params) (v r : Value)
    (h : Handler)
    (hinst : n.REST_instantiate parent id = .ok none)
    (hcreate : n.REST_create parent id = .ok v)
    (hmap : n.REST_map.lookup "PUT" = none)
    (hupd : n.attrs.lookup "update" = some h)
    (hexp : h.expose_resource = some true)
    (hcall : h.call v [] params = .ok r) :
    n.default parent "PUT" [id] params = .ok r ∧
    (n.defaultT loc parent "PUT" [id] params).createCalls = 1 := by
  constructor
  · simp [Node.default, Node.REST_dispatch, Node.REST_invoke, hinst, hcreate,
      hmap, hupd, hexp, hcall, lookup_defaults_PUT]
  · simp [Node.defaultT, Node.REST_dispatchT, Node.REST_invokeT, hinst,
      hcreate, hmap, hupd, hexp, hcall, lookup_defaults_PUT]

/-- Witness for C2 on the sample `userController` at path joe. -/
theorem claim2_put_create_update_witness :
    userController.default none "PUT" ["joe"] [] = .ok (.str "updated") ∧
    (userController.defaultT [] none "PUT" ["joe"] []).createCalls = 1 :=
  claim2_put_create_update userController [] none "joe" []
    (.str "user-joe") (.str "updated") user_update rfl rfl rfl rfl rfl rfl

/-- C3: for a single-segment path whose id does not resolve and a method
other than PUT, `default` raises `cherrypy.NotFound` with no `REST_create`
call, no handler invocation, and no attribute write. -/
theorem claim3_notfound_non_put (n : Node) (loc : List String)
    (parent : Option Value) (m : Method) (id : String) (params : Params)
    (hinst : n.REST_instantiate parent id = .ok none)
    (hm : m ≠ "PUT") :
    n.defaultT loc parent m [id] params = ⟨.error .notFound, [], 0, 0, 1⟩ := by
  have hb : (m == "PUT") = false := beq_eq_false_iff_ne.mpr hm
  simp [Node.defaultT, hinst, hb]

/-- Witness for C3 on the sample `userController` at path joe with GET. -/
theorem claim3_notfound_non_put_witness :
    userController.defaultT [] none "GET" ["joe"] []
      = ⟨.error .notFound, [], 0, 0, 1⟩ :=
  claim3_notfound_non_put userController [] none "GET" "joe" [] rfl
    (by decide)

/-- C4: when the id resolves and the next segment names a child registry
entry, `default` assigns the resolved resource to the parent field of the
child dispatcher (the recorded write) and recurses into the child with the
remaining segments and the same params, returning its result.  The statement
quantifies over all controllers, in particular over those whose attributes
also contain a callable of the same name, so the child-registry branch takes
priority over the exposed-method lookup. -/
theorem claim4_child_delegation (n c : Node) (loc rest : List String)
    (parent : Option Value) (m : Method) (id a : String) (params : Params)
    (v : Value)
    (hinst : n.REST_instantiate parent id = .ok (some v))
    (hchild : n.REST_children.lookup a = some c) :
    n.default parent m (id :: a :: rest) params
      = c.default (some v) m rest params ∧
    (n.defaultT loc parent m (id :: a :: rest) params).writes
      = (loc ++ [a], v)
          :: (c.defaultT (loc ++ [a]) (some v) m rest params).writes := by
  constructor
  · simp [Node.default, hinst, hchild]
  · simp [Node.defaultT, hinst, hchild]

/-- Witness for C4 on the docstring example path bob, posts,
my-first-post. -/
theorem claim4_child_delegation_witness :
    userController.default none "GET" ["bob", "posts", "my-first-post"] []
      = postController.default (some (.str "user-bob")) "GET"
          ["my-first-post"] [] ∧
    (userController.defaultT [] none "GET"
        ["bob", "posts", "my-first-post"] []).writes
      = (["posts"], Value.str "user-bob")
          :: (postController.defaultT ["posts"] (some (.str "user-bob"))
                "GET" ["my-first-post"] []).writes :=
  claim4_child_delegation userController postController [] ["my-first-post"]
    none "GET" "bob" "posts" [] (.str "user-bob") rfl rfl

/-- Sample controller with no callable attributes at all. -/
def bareController : Node :=
  .mk [] [] []
    (fun _ id => .ok (some (.str id)))
    (fun _ _ => .error .notFound)

/-- Sample handler that is exposed but whose invocation raises. -/
def failing_delete : Handler := ⟨some true, fun _ _ _ => .error (.userError "boom")⟩

/-- Sample controller whose delete handler is exposed but raises. -/
def crashController : Node :=
  .mk [] [] [("delete", failing_delete)]
    (fun _ id => .ok (some (.str id)))
    (fun _ _ => .error .notFound)

/-- C5 as stated is false: in the path-segment branch of `default` the
marker check `getattr(method, "expose_resource")` is not guarded by any
`try`, so a matching attribute that carries no marker at all makes the
dispatch raise an uncaught `AttributeError` instead of `cherrypy.NotFound`:
on `unexposedController`, whose attribute extra_action has no marker, the
path x, extra_action under GET yields `AttributeError`, not `NotFound`. -/
theorem claim5_counterexample :
    unexposedController.attrs.lookup "extra_action" = some extra_action ∧
    extra_action.expose_resource = none ∧
    unexposedController.default none "GET" ["x", "extra_action"] []
      = .error .attributeError ∧
    Exc.attributeError ≠ Exc.notFound :=
  ⟨rfl, rfl, rfl, by decide⟩

/-- C5 amended: a handler without a truthy `expose_resource` marker is never
invoked.  In verb dispatch (`REST_dispatch`) the result is `NotFound` with
zero invocations.  In the path-segment branch of `default` there are zero
invocations and the result is `NotFound` when the marker is present but
falsey, and an uncaught `AttributeError` when the marker is absent. -/
theorem claim5_amended_unexposed :
    (∀ (n : Node) (m : Method) (hname : String) (h : Handler) (res : Value)
        (ps : Params),
        (n.REST_map.lookup m = some hname ∨
          (n.REST_map.lookup m = none ∧
            REST_defaults.lookup m = some hname)) →
        n.attrs.lookup hname = some h →
        h.expose_resource ≠ some true →
        n.REST_dispatchT m res ps = ⟨.error .notFound, 0, false⟩) ∧
    (∀ (n : Node) (loc : List String) (parent : Option Value) (m : Method)
        (atom a : String) (rest2 : List String) (ps : Params) (v : Value)
        (h : Handler),
        n.REST_instantiate parent atom = .ok (some v) →
        n.REST_children.lookup a = none →
        n.attrs.lookup a = some h →
        h.expose_resource ≠ some true →
        (n.defaultT loc parent m (atom :: a :: rest2) ps).handlerCalls = 0 ∧
        (n.defaultT loc parent m (atom :: a :: rest2) ps).result
          = (if h.expose_resource = some false then .error .notFound
             else .error .attributeError)) := by
  constructor
  · intro n m hname h res ps hmap hattr hexp
    have hinv : n.REST_invokeT hname res ps = ⟨.error .notFound, 0, false⟩ := by
      cases he : h.expose_resource with
      | none => simp [Node.REST_invokeT, hattr, he]
      | some b =>
        cases b with
        | true => exact absurd he hexp
        | false => simp [Node.REST_invokeT, hattr, he]
    rcases hmap with h1 | ⟨h1, h2⟩
    · simp [Node.REST_dispatchT, h1, hinv]
    · simp [Node.REST_dispatchT, h1, h2, hinv]
  · intro n loc parent m atom a rest2 ps v h hinst hchild hattr hexp
    cases he : h.expose_resource with
    | none =>
      exact ⟨by simp [Node.defaultT, hinst, hchild, hattr, he],
        by simp [Node.defaultT, hinst, hchild, hattr, he]⟩
    | some b =>
      cases b with
      | true => exact absurd he hexp
      | false =>
        exact ⟨by simp [Node.defaultT, hinst, hchild, hattr, he],
          by simp [Node.defaultT, hinst, hchild, hattr, he]⟩

/-- Witness for the amended C5 on `unexposedController`: verb dispatch of
GET (mapped by its `REST_map` to the unmarked attribute) yields `NotFound`
without invocation, and the path-segment case yields `AttributeError`
without invocation. -/
theorem claim5_amended_unexposed_witness :
    unexposedController.REST_dispatchT "GET" (.str "r") []
      = ⟨.error .notFound, 0, false⟩ ∧
    (unexposedController.defaultT [] none "GET"
        ["x", "extra_action"] []).handlerCalls = 0 ∧
    (unexposedController.defaultT [] none "GET"
        ["x", "extra_action"] []).result = .error .attributeError := by
  have h2 := claim5_amended_unexposed.2 unexposedController [] none "GET"
    "x" "extra_action" [] [] (.str "x") extra_action rfl rfl rfl
    (by simp [extra_action])
  refine ⟨claim5_amended_unexposed.1 unexposedController "GET" "extra_action"
    extra_action (.str "r") [] (Or.inl rfl) rfl (by simp [extra_action]),
    h2.1, ?_⟩
  simpa [extra_action] using h2.2

/-- C6: in `REST_dispatch`, a method mapped by `REST_map` (or, failing that,
by `REST_defaults`) whose named handler attribute is absent on the instance
logs a warning and raises `HTTPError(status=400)`; a method in neither
mapping raises `cherrypy.NotFound` (no warning, no invocation). -/
theorem claim6_missing_handler (n : Node) (m : Method) (res : Value)
    (ps : Params) (hname : String) :
    ((n.REST_map.lookup m = some hname ∨
        (n.REST_map.lookup m = none ∧ REST_defaults.lookup m = some hname)) →
      n.attrs.lookup hname = none →
      n.REST_dispatchT m res ps = ⟨.error (.httpError 400), 0, true⟩) ∧
    (n.REST_map.lookup m = none → REST_defaults.lookup m = none →
      n.REST_dispatchT m res ps = ⟨.error .notFound, 0, false⟩) := by
  constructor
  · intro hmap habs
    rcases hmap with h1 | ⟨h1, h2⟩
    · simp [Node.REST_dispatchT, Node.REST_invokeT, h1, habs]
    · simp [Node.REST_dispatchT, Node.REST_invokeT, h1, h2, habs]
  · intro h1 h2
    simp [Node.REST_dispatchT, h1, h2]

/-- Witness for C6 on `bareController`: GET maps to the absent attribute
index, giving a logged 400; the unmapped method PATCH gives `NotFound`. -/
theorem claim6_missing_handler_witness :
    bareController.REST_dispatchT "GET" (.str "r") []
      = ⟨.error (.httpError 400), 0, true⟩ ∧
    bareController.REST_dispatchT "PATCH" (.str "r") []
      = ⟨.error .notFound, 0, false⟩ :=
  ⟨(claim6_missing_handler bareController "GET" (.str "r") [] "index").1
      (Or.inr ⟨rfl, rfl⟩) rfl,
    (claim6_missing_handler bareController "PATCH" (.str "r") [] "x").2
      rfl rfl⟩

/-- C7: in `REST_dispatch`, when the mapped handler exists and carries a
truthy `expose_resource` marker but its invocation raises, the exception is
swallowed by the bare `except: pass` and the dispatch falls through to
`raise cherrypy.NotFound`; the invocation count 1 records that the handler
did run before failing. -/
theorem claim7_swallowed_exception (n : Node) (m : Method) (res : Value)
    (ps : Params) (hname : String) (h : Handler) (e : Exc)
    (hmap : n.REST_map.lookup m = some hname ∨
      (n.REST_map.lookup m = none ∧ REST_defaults.lookup m = some hname))
    (hattr : n.attrs.lookup hname = some h)
    (hexp : h.expose_resource = some true)
    (hcall : h.call res [] ps = .error e) :
    n.REST_dispatchT m res ps = ⟨.error .notFound, 1, false⟩ := by
  have hinv : n.REST_invokeT hname res ps = ⟨.error .notFound, 1, false⟩ := by
    simp [Node.REST_invokeT, hattr, hexp, hcall]
  rcases hmap with h1 | ⟨h1, h2⟩
  · simp [Node.REST_dispatchT, h1, hinv]
  · simp [Node.REST_dispatchT, h1, h2, hinv]

/-- Witness for C7 on `crashController`: its exposed delete handler raises,
and DELETE dispatch ends in `NotFound` after one invocation. -/
theorem claim7_swallowed_exception_witness :
    crashController.REST_dispatchT "DELETE" (.str "r") []
      = ⟨.error .notFound, 1, false⟩ :=
  claim7_swallowed_exception crashController "DELETE" (.str "r") [] "delete"
    failing_delete (.userError "boom") (Or.inr ⟨rfl, rfl⟩) rfl rfl rfl

/-- C8: a `default` call with an empty path sequence returns exactly what
the listing fallback `list(**params)` produces — for every controller, any
parent context and any method, the result is `list_builtin params` (the
Python builtin `list`: the empty list for no parameters, a raised
`TypeError` otherwise; the `self.list(**params)` variant is commented out
in the source). -/
theorem claim8_empty_path_list_fallback (n : Node) (parent : Option Value)
    (m : Method) (params : Params) :
    n.default parent m [] params = list_builtin params := rfl

/-- The invocation block runs at most one handler, and when it runs none
the dispatch raised an exception. -/
theorem REST_invokeT_calls (n : Node) (hname : String) (res : Value)
    (ps : Params) :
    (n.REST_invokeT hname res ps).calls ≤ 1 ∧
    ((n.REST_invokeT hname res ps).calls = 1 ∨
      ∃ e, (n.REST_invokeT hname res ps).result = .error e) := by
  cases h1 : n.attrs.lookup hname with
  | none =>
    refine ⟨?_, Or.inr ⟨.httpError 400, ?_⟩⟩ <;> simp [Node.REST_invokeT, h1]
  | some m =>
    cases h2 : m.expose_resource with
    | none =>
      refine ⟨?_, Or.inr ⟨.notFound, ?_⟩⟩ <;> simp [Node.REST_invokeT, h1, h2]
    | some b =>
      cases b with
      | false =>
        refine ⟨?_, Or.inr ⟨.notFound, ?_⟩⟩ <;>
          simp [Node.REST_invokeT, h1, h2]
      | true =>
        cases h3 : m.call res [] ps with
        | ok v =>
          refine ⟨?_, Or.inl ?_⟩ <;> simp [Node.REST_invokeT, h1, h2, h3]
        | error e =>
          refine ⟨?_, Or.inl ?_⟩ <;> simp [Node.REST_invokeT, h1, h2, h3]

/-- Verb dispatch runs at most one handler, and when it runs none the
dispatch raised an exception. -/
theorem REST_dispatchT_calls (n : Node) (m : Method) (res : Value)
    (ps : Params) :
    (n.REST_dispatchT m res ps).calls ≤ 1 ∧
    ((n.REST_dispatchT m res ps).calls = 1 ∨
      ∃ e, (n.REST_dispatchT m res ps).result = .error e) := by
  cases h1 : n.REST_map.lookup m with
  | some hname =>
    simpa [Node.REST_dispatchT, h1] using REST_invokeT_calls n hname res ps
  | none =>
    cases h2 : REST_defaults.lookup m with
    | some hname =>
      simpa [Node.REST_dispatchT, h1, h2] using
        REST_invokeT_calls n hname res ps
    | none =>
      refine ⟨?_, Or.inr ⟨.notFound, ?_⟩⟩ <;> simp [Node.REST_dispatchT, h1, h2]

/-- The walk invokes at most one handler, runs at most one stack frame more
than the number of path segments, and ends in a handler invocation, a raised
exception, or the listing fallback applied to the request params. -/
theorem defaultT_bounds (vpath : List String) (n : Node) (loc : List String)
    (parent : Option Value) (m : Method) (ps : Params) :
    (n.defaultT loc parent m vpath ps).handlerCalls ≤ 1 ∧
    (n.defaultT loc parent m vpath ps).depth ≤ vpath.length + 1 ∧
    ((n.defaultT loc parent m vpath ps).handlerCalls = 1 ∨
      (∃ e, (n.defaultT loc parent m vpath ps).result = .error e) ∨
      (n.defaultT loc parent m vpath ps).result = list_builtin ps) := by
  match vpath with
  | [] =>
    refine ⟨?_, ?_, Or.inr (Or.inr ?_)⟩ <;> simp [Node.defaultT]
  | atom :: [] =>
    cases h1 : n.REST_instantiate parent atom with
    | error e =>
      refine ⟨?_, ?_, Or.inr (Or.inl ⟨e, ?_⟩)⟩ <;> simp [Node.defaultT, h1]
    | ok o =>
      cases o with
      | some r =>
        obtain ⟨hle, hdisj⟩ := REST_dispatchT_calls n m r ps
        refine ⟨by simpa [Node.defaultT, h1] using hle,
          by simp [Node.defaultT, h1], ?_⟩
        rcases hdisj with hc | ⟨e, he⟩
        · exact Or.inl (by simpa [Node.defaultT, h1] using hc)
        · exact Or.inr (Or.inl ⟨e, by simpa [Node.defaultT, h1] using he⟩)
      | none =>
        by_cases hput : (m == "PUT") = true
        · cases h2 : n.REST_create parent atom with
          | error e =>
            refine ⟨?_, ?_, Or.inr (Or.inl ⟨e, ?_⟩)⟩ <;>
              simp [Node.defaultT, h1, hput, h2]
          | ok r =>
            obtain ⟨hle, hdisj⟩ := REST_dispatchT_calls n m r ps
            refine ⟨by simpa [Node.defaultT, h1, hput, h2] using hle,
              by simp [Node.defaultT, h1, hput, h2], ?_⟩
            rcases hdisj with hc | ⟨e, he⟩
            · exact Or.inl (by simpa [Node.defaultT, h1, hput, h2] using hc)
            · exact Or.inr (Or.inl
                ⟨e, by simpa [Node.defaultT, h1, hput, h2] using he⟩)
        · refine ⟨?_, ?_, Or.inr (Or.inl ⟨.notFound, ?_⟩)⟩ <;>
            simp [Node.defaultT, h1, hput]
  | atom :: a :: rest2 =>
    cases h1 : n.REST_instantiate parent atom with
    | error e =>
      refine ⟨?_, ?_, Or.inr (Or.inl ⟨e, ?_⟩)⟩ <;> simp [Node.defaultT, h1]
    | ok o =>
      cases o with
      | some r =>
        cases h4 : n.REST_children.lookup a with
        | some c =>
          obtain ⟨ih1, ih2, ih3⟩ :=
            defaultT_bounds rest2 c (loc ++ [a]) (some r) m ps
          refine ⟨by simpa [Node.defaultT, h1, h4] using ih1, ?_, ?_⟩
          · have hd : (n.defaultT loc parent m (atom :: a :: rest2) ps).depth
                = (c.defaultT (loc ++ [a]) (some r) m rest2 ps).depth + 1 := by
              simp [Node.defaultT, h1, h4]
            rw [hd]
            simp only [List.length_cons]
            omega
          · rcases ih3 with hc | ⟨e, he⟩ | hl
            · exact Or.inl (by simpa [Node.defaultT, h1, h4] using hc)
            · exact Or.inr (Or.inl ⟨e, by simpa [Node.defaultT, h1, h4] using he⟩)
            · exact Or.inr (Or.inr (by simpa [Node.defaultT, h1, h4] using hl))
        | none =>
          cases h5 : n.attrs.lookup a with
          | none =>
            refine ⟨?_, ?_, Or.inr (Or.inl ⟨.notFound, ?_⟩)⟩ <;>
              simp [Node.defaultT, h1, h4, h5]
          | some hm =>
            cases h6 : hm.expose_resource with
            | none =>
              refine ⟨?_, ?_, Or.inr (Or.inl ⟨.attributeError, ?_⟩)⟩ <;>
                simp [Node.defaultT, h1, h4, h5, h6]
            | some b =>
              cases b with
              | false =>
                refine ⟨?_, ?_, Or.inr (Or.inl ⟨.notFound, ?_⟩)⟩ <;>
                  simp [Node.defaultT, h1, h4, h5, h6]
              | true =>
                refine ⟨?_, ?_, Or.inl ?_⟩ <;>
                  simp [Node.defaultT, h1, h4, h5, h6]
      | none =>
        by_cases hput : (m == "PUT") = true
        · cases h2 : n.REST_create parent atom with
          | error e =>
            refine ⟨?_, ?_, Or.inr (Or.inl ⟨e, ?_⟩)⟩ <;>
              simp [Node.defaultT, h1, hput, h2]
          | ok r =>
            cases h4 : n.REST_children.lookup a with
            | some c =>
              obtain ⟨ih1, ih2, ih3⟩ :=
                defaultT_bounds rest2 c (loc ++ [a]) (some r) m ps
              refine ⟨by simpa [Node.defaultT, h1, hput, h2, h4] using ih1,
                ?_, ?_⟩
              · have hd : (n.defaultT loc parent m (atom :: a :: rest2) ps).depth
                    = (c.defaultT (loc ++ [a]) (some r) m rest2 ps).depth + 1 := by
                  simp [Node.defaultT, h1, hput, h2, h4]
                rw [hd]
                simp only [List.length_cons]
                omega
              · rcases ih3 with hc | ⟨e, he⟩ | hl
                · exact Or.inl
                    (by simpa [Node.defaultT, h1, hput, h2, h4] using hc)
                · exact Or.inr (Or.inl
                    ⟨e, by simpa [Node.defaultT, h1, hput, h2, h4] using he⟩)
                · exact Or.inr (Or.inr
                    (by simpa [Node.defaultT, h1, hput, h2, h4] using hl))
            | none =>
              cases h5 : n.attrs.lookup a with
              | none =>
                refine ⟨?_, ?_, Or.inr (Or.inl ⟨.notFound, ?_⟩)⟩ <;>
                  simp [Node.defaultT, h1, hput, h2, h4, h5]
              | some hm =>
                cases h6 : hm.expose_resource with
                | none =>
                  refine ⟨?_, ?_, Or.inr (Or.inl ⟨.attributeError, ?_⟩)⟩ <;>
                    simp [Node.defaultT, h1, hput, h2, h4, h5, h6]
                | some b =>
                  cases b with
                  | false =>
                    refine ⟨?_, ?_, Or.inr (Or.inl ⟨.notFound, ?_⟩)⟩ <;>
                      simp [Node.defaultT, h1, hput, h2, h4, h5, h6]
                  | true =>
                    refine ⟨?_, ?_, Or.inl ?_⟩ <;>
                      simp [Node.defaultT, h1, hput, h2, h4, h5, h6]
        · refine ⟨?_, ?_, Or.inr (Or.inl ⟨.notFound, ?_⟩)⟩ <;>
            simp [Node.defaultT, h1, hput]

/-- C9 as stated is false: the walk can end in a state that is neither a
handler invocation nor a NotFound or BadRequest failure.  On
`unexposedController` under GET, the path x, extra_action terminates with
zero handler invocations and an uncaught `AttributeError`, which is neither
`NotFound` nor `HTTPError 400`. -/
theorem claim9_counterexample :
    (unexposedController.defaultT [] none "GET"
        ["x", "extra_action"] []).handlerCalls = 0 ∧
    (unexposedController.defaultT [] none "GET"
        ["x", "extra_action"] []).result = .error .attributeError ∧
    Exc.attributeError ≠ Exc.notFound ∧
    Exc.attributeError ≠ Exc.httpError 400 :=
  ⟨rfl, rfl, by decide, by decide⟩

/-- C9 amended: for every finite path-segment sequence the walk terminates
(`defaultT` is a total function); it invokes at most one handler, its
recursion depth is bounded by the segment count plus one (each recursion
into a child consumes two segments, so the remaining-segment count strictly
decreases and there is no backtracking), and it ends either in a handler
invocation, or in a failure raised as an exception (NotFound,
BadRequest 400, or a propagated exception such as AttributeError), or in
the empty-path listing fallback applied to the request params. -/
theorem claim9_amended_termination (vpath : List String) (n : Node)
    (loc : List String) (parent : Option Value) (m : Method) (ps : Params) :
    (n.defaultT loc parent m vpath ps).handlerCalls ≤ 1 ∧
    (n.defaultT loc parent m vpath ps).depth ≤ vpath.length + 1 ∧
    ((n.defaultT loc parent m vpath ps).handlerCalls = 1 ∨
      (∃ e, (n.defaultT loc parent m vpath ps).result = .error e) ∨
      (n.defaultT loc parent m vpath ps).result = list_builtin ps) :=
  defaultT_bounds vpath n loc parent m ps

/-- Every attribute write recorded by the walk targets a node strictly
below the dispatcher the walk started at. -/
theorem defaultT_writes_shape (vpath : List String) (n : Node)
    (loc : List String) (parent : Option Value) (m : Method) (ps : Params) :
    ∀ w ∈ (n.defaultT loc parent m vpath ps).writes,
      ∃ t v, w = (loc ++ t, v) ∧ t ≠ [] := by
  match vpath with
  | [] =>
    intro w hw
    simp [Node.defaultT] at hw
  | atom :: [] =>
    intro w hw
    cases h1 : n.REST_instantiate parent atom with
    | error e => simp [Node.defaultT, h1] at hw
    | ok o =>
      cases o with
      | some r => simp [Node.defaultT, h1] at hw
      | none =>
        by_cases hput : (m == "PUT") = true
        · cases h2 : n.REST_create parent atom with
          | error e => simp [Node.defaultT, h1, hput, h2] at hw
          | ok r => simp [Node.defaultT, h1, hput, h2] at hw
        · simp [Node.defaultT, h1, hput] at hw
  | atom :: a :: rest2 =>
    intro w hw
    cases h1 : n.REST_instantiate parent atom with
    | error e => simp [Node.defaultT, h1] at hw
    | ok o =>
      cases o with
      | some r =>
        cases h4 : n.REST_children.lookup a with
        | some c =>
          simp only [Node.defaultT, h1, h4, List.mem_cons] at hw
          rcases hw with rfl | hw2
          · exact ⟨[a], r, rfl, by simp⟩
          · obtain ⟨t, v, ht, hne⟩ :=
              defaultT_writes_shape rest2 c (loc ++ [a]) (some r) m ps w hw2
            refine ⟨[a] ++ t, v, ?_, by simp⟩
            rw [ht, List.append_assoc]
        | none =>
          cases h5 : n.attrs.lookup a with
          | none => simp [Node.defaultT, h1, h4, h5] at hw
          | some hm =>
            cases h6 : hm.expose_resource with
            | none => simp [Node.defaultT, h1, h4, h5, h6] at hw
            | some b =>
              cases b <;> simp [Node.defaultT, h1, h4, h5, h6] at hw
      | none =>
        by_cases hput : (m == "PUT") = true
        · cases h2 : n.REST_create parent atom with
          | error e => simp [Node.defaultT, h1, hput, h2] at hw
          | ok r =>
            cases h4 : n.REST_children.lookup a with
            | some c =>
              simp only [Node.defaultT, h1, hput, h2, h4, if_true,
                List.mem_cons] at hw
              rcases hw with rfl | hw2
              · exact ⟨[a], r, rfl, by simp⟩
              · obtain ⟨t, v, ht, hne⟩ :=
                  defaultT_writes_shape rest2 c (loc ++ [a]) (some r) m ps w hw2
                refine ⟨[a] ++ t, v, ?_, by simp⟩
                rw [ht, List.append_assoc]
            | none =>
              cases h5 : n.attrs.lookup a with
              | none => simp [Node.defaultT, h1, hput, h2, h4, h5] at hw
              | some hm =>
                cases h6 : hm.expose_resource with
                | none => simp [Node.defaultT, h1, hput, h2, h4, h5, h6] at hw
                | some b =>
                  cases b <;>
                    simp [Node.defaultT, h1, hput, h2, h4, h5, h6] at hw
        · simp [Node.defaultT, h1, hput] at hw

/-- C10: the walk never mutates the dispatcher it starts at.  The only
attribute write in the source of `default` is `c.parent = resource` on the
child dispatcher being delegated to, and every write recorded by the
instrumented walk targets a path that strictly extends the path of the
dispatcher the call started at — never the dispatcher itself.  The caller's
segment sequence is an immutable argument of the embedding, mirroring the
copy `vpath = list(vpath)` taken before any segment is popped. -/
theorem claim10_frame_writes (n : Node) (loc : List String)
    (parent : Option Value) (m : Method) (vpath : List String) (ps : Params)
    (w : List String × Value)
    (hw : w ∈ (n.defaultT loc parent m vpath ps).writes) :
    ∃ t v, w = (loc ++ t, v) ∧ t ≠ [] :=
  defaultT_writes_shape vpath n loc parent m ps w hw

/-- Witness for C10 on the docstring example path: the single write of the
run targets the posts child, a strict extension of the root path. -/
theorem claim10_frame_writes_witness :
    ∃ t v, ((["posts"], Value.str "user-bob") : List String × Value)
        = (([] : List String) ++ t, v) ∧ t ≠ [] :=
  claim10_frame_writes userController [] none "GET"
    ["bob", "posts", "my-first-post"] [] (["posts"], Value.str "user-bob")
    (List.Mem.head _)

end SHRest
